import Mathlib

/-!
Verification of the Health-Monitor core: the degradation analyzer
(`analyze_health_data`), the incident correlator
(`handle_degradation_and_incidents`), the prober's single-endpoint check
(`check_single_endpoint`) and incident updates (`update_incident`),
shallowly embedded from the repository's Python sources.  Percentage
arithmetic (Python floats over small integer counts) is modelled by exact
rational arithmetic; wall-clock timestamps are abstract `Nat` instants
passed in by the caller.
-/

namespace HealthMonitor

/-- Default `HEALTH_CHECK_WINDOW_MINUTES` (degradation_functions.py line 14). -/
def HEALTH_CHECK_WINDOW : Nat := 60

/-- Default `DEGRADATION_THRESHOLD_PERCENT` (degradation_functions.py line 15). -/
def DEGRADATION_THRESHOLD : ℚ := 70

/-- Default `CONCENTRATED_FAILURES_THRESHOLD_PERCENT` (degradation_functions.py line 16). -/
def CONCENTRATED_FAILURES_THRESHOLD : ℚ := 90

/-- One row of the `Health_Status` table (db_models.py lines 21-26):
a health observation for a service. -/
structure Health_Status where
  service_id : Nat
  is_health : Bool
  timestamp : Nat
  status_code : Int
  deriving DecidableEq, Repr

/-- `sum(1 for record in records if not record.is_health)`:
the number of unhealthy records in a list. -/
def countUnhealthy (records : List Health_Status) : Nat :=
  (records.filter (fun r => !r.is_health)).length

/-- `analyze_health_data` (degradation_functions.py lines 18-66), embedded on
the list of in-window health records the database query returns (ordered
ascending by timestamp).  Returns `true` iff the service is degraded. -/
def analyze_health_data (health_records : List Health_Status) : Bool :=
  if health_records.isEmpty then
    false
  else
    let total_records := health_records.length
    let unhealthy_records := countUnhealthy health_records
    let failure_percentage : ℚ := ((unhealthy_records : ℚ) / (total_records : ℚ)) * 100
    let is_degraded := decide (DEGRADATION_THRESHOLD ≤ failure_percentage)
    let mid_point := health_records.length / 2
    let recent_records := health_records.drop mid_point
    let recent_unhealthy := countUnhealthy recent_records
    if unhealthy_records > 0 then
      let recent_failure_percentage : ℚ :=
        ((recent_unhealthy : ℚ) / (unhealthy_records : ℚ)) * 100
      is_degraded || decide (CONCENTRATED_FAILURES_THRESHOLD ≤ recent_failure_percentage)
    else
      is_degraded

/-- Condition A of the spec: the in-window failure rate reaches the
degradation threshold (boundary inclusive). -/
def conditionA (records : List Health_Status) : Prop :=
  DEGRADATION_THRESHOLD ≤ ((countUnhealthy records : ℚ) / (records.length : ℚ)) * 100

/-- Condition B of the spec: there is at least one unhealthy record and the
share of unhealthy records falling in the second half of the
timestamp-ordered list reaches the concentration threshold. -/
def conditionB (records : List Health_Status) : Prop :=
  0 < countUnhealthy records ∧
    CONCENTRATED_FAILURES_THRESHOLD ≤
      ((countUnhealthy (records.drop (records.length / 2)) : ℚ) /
        (countUnhealthy records : ℚ)) * 100

/-- Rational threshold comparisons reduce to natural-number inequalities:
Condition A as a decidable comparison of counts. -/
theorem conditionA_iff_nat (records : List Health_Status) (h : records ≠ []) :
    conditionA records ↔ 70 * records.length ≤ 100 * countUnhealthy records := by
  have ht : (0 : ℚ) < (records.length : ℚ) := by
    exact_mod_cast List.length_pos.mpr h
  unfold conditionA DEGRADATION_THRESHOLD
  rw [div_mul_eq_mul_div, le_div_iff₀ ht]
  constructor
  · intro hle
    have : (70 * records.length : ℚ) ≤ (100 * countUnhealthy records : ℚ) := by
      linarith
    exact_mod_cast this
  · intro hle
    have : (70 * records.length : ℚ) ≤ (100 * countUnhealthy records : ℚ) := by
      exact_mod_cast hle
    push_cast at this
    linarith

/-- Condition B as a decidable comparison of counts, given at least one
unhealthy record. -/
theorem conditionB_iff_nat (records : List Health_Status) (h : 0 < countUnhealthy records) :
    conditionB records ↔
      90 * countUnhealthy records ≤
        100 * countUnhealthy (records.drop (records.length / 2)) := by
  have hu : (0 : ℚ) < (countUnhealthy records : ℚ) := by exact_mod_cast h
  unfold conditionB CONCENTRATED_FAILURES_THRESHOLD
  rw [div_mul_eq_mul_div, le_div_iff₀ hu]
  constructor
  · intro ⟨_, hle⟩
    have : (90 * countUnhealthy records : ℚ) ≤
        (100 * countUnhealthy (records.drop (records.length / 2)) : ℚ) := by
      linarith
    exact_mod_cast this
  · intro hle
    refine ⟨h, ?_⟩
    have : (90 * countUnhealthy records : ℚ) ≤
        (100 * countUnhealthy (records.drop (records.length / 2)) : ℚ) := by
      exact_mod_cast hle
    push_cast at this
    linarith

/-- C1: for a non-empty, timestamp-ordered window, `analyze_health_data`
returns degraded exactly when Condition A (failure rate at or above 70%)
or Condition B (at least one unhealthy record and at least 90% of the
unhealthy records concentrated in the second half) holds. -/
theorem analyze_degraded_iff_condA_or_condB (records : List Health_Status)
    (h : records ≠ []) :
    analyze_health_data records = true ↔ conditionA records ∨ conditionB records := by
  have hne : records.isEmpty = false := by
    cases records with
    | nil => exact absurd rfl h
    | cons a l => rfl
  unfold analyze_health_data conditionA conditionB
  simp only [hne, Bool.false_eq_true, if_false]
  by_cases hu : countUnhealthy records > 0
  · simp only [if_pos hu, Bool.or_eq_true, decide_eq_true_eq]
    constructor
    · rintro (hA | hB)
      · exact Or.inl hA
      · exact Or.inr ⟨hu, hB⟩
    · rintro (hA | ⟨_, hB⟩)
      · exact Or.inl hA
      · exact Or.inr hB
  · simp only [if_neg hu, decide_eq_true_eq]
    constructor
    · intro hA
      exact Or.inl hA
    · rintro (hA | ⟨h0, _⟩)
      · exact hA
      · exact absurd h0 hu

/-- Witness for C1: the two-record window `[healthy, unhealthy]` instantiates
the equivalence. -/
theorem analyze_degraded_iff_condA_or_condB_witness :
    analyze_health_data [⟨1, true, 0, 200⟩, ⟨1, false, 1, 500⟩] = true ↔
      conditionA [⟨1, true, 0, 200⟩, ⟨1, false, 1, 500⟩] ∨
        conditionB [⟨1, true, 0, 200⟩, ⟨1, false, 1, 500⟩] :=
  analyze_degraded_iff_condA_or_condB [⟨1, true, 0, 200⟩, ⟨1, false, 1, 500⟩] (by decide)

/-- C8: an empty in-window observation set yields the neutral not-degraded
verdict. -/
theorem analyze_empty_window_not_degraded (records : List Health_Status)
    (h : records = []) : analyze_health_data records = false := by
  subst h
  rfl

/-- Witness for C8: evaluated at the empty window. -/
theorem analyze_empty_window_not_degraded_witness :
    analyze_health_data [] = false :=
  analyze_empty_window_not_degraded [] rfl

/-- C7: a window holding exactly one observation, which is unhealthy,
is judged degraded. -/
theorem analyze_single_unhealthy_degraded (records : List Health_Status)
    (h1 : records.length = 1) (h2 : countUnhealthy records = 1) :
    analyze_health_data records = true := by
  have hne : records ≠ [] := by
    intro hnil
    rw [hnil] at h1
    exact absurd h1 (by decide)
  rw [analyze_degraded_iff_condA_or_condB records hne]
  left
  rw [conditionA_iff_nat records hne, h1, h2]
  omega

/-- Witness for C7: the one-record unhealthy window. -/
theorem analyze_single_unhealthy_degraded_witness :
    analyze_health_data [⟨1, false, 0, 500⟩] = true :=
  analyze_single_unhealthy_degraded [⟨1, false, 0, 500⟩] (by decide) (by decide)

/-- The unhealthy count of the recent half never exceeds the unhealthy count
of the whole window. -/
theorem countUnhealthy_drop_le (records : List Health_Status) (m : Nat) :
    countUnhealthy (records.drop m) ≤ countUnhealthy records :=
  ((List.drop_sublist m records).filter _).length_le

/-- C9: if the window holds exactly one unhealthy observation and it sits in
the second half of the timestamp-ordered list, `analyze_health_data` judges
the service degraded, and Condition B (recent-failure concentration) is what
holds — however many healthy observations surround it. -/
theorem analyze_lone_recent_failure_degraded (records : List Health_Status)
    (i : Nat) (hi : i < records.length)
    (hmid : records.length / 2 ≤ i)
    (hbad : (records.get ⟨i, hi⟩).is_health = false)
    (hone : countUnhealthy records = 1) :
    analyze_health_data records = true ∧ conditionB records := by
  have hne : records ≠ [] := List.ne_nil_of_length_pos (by omega)
  have hmem : records.get ⟨i, hi⟩ ∈ records.drop (records.length / 2) := by
    have hlt : records.length / 2 + (i - records.length / 2) < records.length := by omega
    have hjlt : i - records.length / 2 < (records.drop (records.length / 2)).length := by
      rw [List.length_drop]
      omega
    have hidx : (records.drop (records.length / 2)).get ⟨i - records.length / 2, hjlt⟩ =
        records.get ⟨records.length / 2 + (i - records.length / 2), hlt⟩ := by
      simp only [List.get_eq_getElem]
      exact List.getElem_drop ..
    have hieq : records.length / 2 + (i - records.length / 2) = i := by omega
    have hsame : (records.drop (records.length / 2)).get ⟨i - records.length / 2, hjlt⟩ =
        records.get ⟨i, hi⟩ := by
      rw [hidx]
      congr 1
      exact Fin.ext hieq
    rw [← hsame]
    exact List.get_mem ..
  have hpos : 0 < countUnhealthy (records.drop (records.length / 2)) := by
    unfold countUnhealthy
    refine List.length_pos.mpr (List.ne_nil_of_mem (a := records.get ⟨i, hi⟩) ?_)
    exact List.mem_filter.mpr ⟨hmem, by simpa using hbad⟩
  have hle : countUnhealthy (records.drop (records.length / 2)) ≤ countUnhealthy records :=
    countUnhealthy_drop_le records (records.length / 2)
  have heq : countUnhealthy (records.drop (records.length / 2)) = 1 := by omega
  have hB : conditionB records := by
    rw [conditionB_iff_nat records (by omega), hone, heq]
    omega
  exact ⟨(analyze_degraded_iff_condA_or_condB records hne).mpr (Or.inr hB), hB⟩

/-- Witness for C9: four healthy observations followed by a single unhealthy
one (overall rate 20%, far below 70%) still comes out degraded. -/
theorem analyze_lone_recent_failure_degraded_witness :
    analyze_health_data
        [⟨1, true, 0, 200⟩, ⟨1, true, 1, 200⟩, ⟨1, true, 2, 200⟩,
          ⟨1, true, 3, 200⟩, ⟨1, false, 4, 503⟩] = true ∧
      conditionB
        [⟨1, true, 0, 200⟩, ⟨1, true, 1, 200⟩, ⟨1, true, 2, 200⟩,
          ⟨1, true, 3, 200⟩, ⟨1, false, 4, 503⟩] :=
  analyze_lone_recent_failure_degraded
    [⟨1, true, 0, 200⟩, ⟨1, true, 1, 200⟩, ⟨1, true, 2, 200⟩,
      ⟨1, true, 3, 200⟩, ⟨1, false, 4, 503⟩]
    4 (by decide) (by decide) (by decide) (by decide)

/-- One row of the `Cloud_Services` table (db_models.py lines 7-18). -/
structure Cloud_Services where
  id : Nat
  service_name : String
  endpoint : String
  is_live : Bool
  deriving DecidableEq, Repr

/-- `IncidentStatus` (db_models.py lines 32-35). -/
inductive IncidentStatus where
  | OPEN
  | CLOSED
  | ACKNOWLEDGED
  deriving DecidableEq, Repr

/-- `EventType` (db_models.py lines 38-40). -/
inductive EventType where
  | PLANNED
  | UNPLANNED
  deriving DecidableEq, Repr

/-- One row of the `Incident` table (db_models.py lines 72-86); user foreign
keys and relationship attributes are dropped, `status` defaults to OPEN as in
the model. -/
structure Incident where
  id : Nat
  created_by_event : Option Nat
  created_by : String
  service_id : Nat
  status : IncidentStatus
  created_at : Nat
  event_name : String
  event_type : EventType
  updated_at : Nat
  updated_by : Option String
  event_description : String
  deriving DecidableEq, Repr

/-- One row of the `Degradation_Events` table (db_models.py lines 98-104). -/
structure Degradation_Events where
  id : Nat
  service_id : Nat
  incident_id : Option Nat
  timestamp : Nat
  time_window_minutes : Nat
  auto_triggered : Bool
  deriving DecidableEq, Repr

/-- The relational store the correlator reads and writes, with the
auto-increment counters the database would keep for primary keys. -/
structure StoreState where
  services : List Cloud_Services
  incidents : List Incident
  events : List Degradation_Events
  nextIncidentId : Nat
  nextEventId : Nat
  deriving DecidableEq, Repr

/-- The `result` dict `handle_degradation_and_incidents` builds
(degradation_functions.py lines 79-82). -/
structure CorrelateResult where
  incident_id : Option Nat
  message : String
  deriving DecidableEq, Repr

/-- Step 1 of the correlator (degradation_functions.py lines 88-96): the
first incident of the service whose status is OPEN or ACKNOWLEDGED. -/
def find_open_incident (service_id : Nat) (s : StoreState) : Option Incident :=
  s.incidents.find? (fun i =>
    i.service_id == service_id &&
      (i.status == IncidentStatus.OPEN || i.status == IncidentStatus.ACKNOWLEDGED))

/-- Steps 2-3 of the correlator (degradation_functions.py lines 98-108):
build the degradation event — referencing the open incident when one was
found — and commit it. -/
def insert_degradation_event (service_id : Nat) (open_incident : Option Incident)
    (auto_triggered : Bool) (now : Nat) (s : StoreState) :
    Degradation_Events × StoreState :=
  let degradation_event : Degradation_Events :=
    { id := s.nextEventId
      service_id := service_id
      incident_id := open_incident.map (fun i => i.id)
      timestamp := now
      time_window_minutes := HEALTH_CHECK_WINDOW
      auto_triggered := auto_triggered }
  (degradation_event,
    { s with
        events := s.events ++ [degradation_event]
        nextEventId := s.nextEventId + 1 })

/-- First half of step 4 (degradation_functions.py lines 111-122): build the
new OPEN incident from the triggering event and commit it. -/
def insert_incident (service : Cloud_Services) (service_id : Nat)
    (triggering_event_id : Nat) (auto_triggered : Bool) (now : Nat)
    (s : StoreState) : Incident × StoreState :=
  let incident : Incident :=
    { id := s.nextIncidentId
      created_by_event := some triggering_event_id
      created_by := if auto_triggered then "auto_run" else "user"
      service_id := service_id
      status := IncidentStatus.OPEN
      created_at := now
      event_name := "Service Degradation - " ++ service.service_name
      event_type := EventType.UNPLANNED
      updated_at := now
      updated_by := none
      event_description := "Service degradation detected for " ++ service.service_name }
  (incident,
    { s with
        incidents := s.incidents ++ [incident]
        nextIncidentId := s.nextIncidentId + 1 })

/-- Second half of step 4 (degradation_functions.py lines 124-127): back-fill
the degradation event's incident reference and commit the update. -/
def backfill_event (event_id : Nat) (incident_id : Nat) (s : StoreState) : StoreState :=
  { s with
      events := s.events.map (fun e =>
        if e.id == event_id then { e with incident_id := some incident_id } else e) }

/-- `handle_degradation_and_incidents` (degradation_functions.py lines
68-135): the incident correlator.  A raised `ValueError` is an
`Except.error`; the store travels alongside so that the state after a raise
is observable. -/
def handle_degradation_and_incidents (service_id : Nat) (is_degraded : Bool)
    (auto_triggered : Bool) (now : Nat) (s : StoreState) :
    Except String CorrelateResult × StoreState :=
  match s.services.find? (fun c => c.id == service_id) with
  | none =>
      (Except.error ("Service with ID " ++ toString service_id ++ " not found"), s)
  | some service =>
      if !is_degraded then
        (Except.ok
          { incident_id := none
            message := "Service " ++ service.service_name ++ " is not degraded" }, s)
      else
        let open_incident := find_open_incident service_id s
        let es := insert_degradation_event service_id open_incident auto_triggered now s
        match open_incident with
        | none =>
            let ns := insert_incident service service_id es.1.id auto_triggered now es.2
            let s3 := backfill_event es.1.id ns.1.id ns.2
            (Except.ok
              { incident_id := some ns.1.id
                message := "New incident created for " ++ service.service_name ++
                  " (ID: " ++ toString ns.1.id ++ ")" }, s3)
        | some oi =>
            (Except.ok
              { incident_id := some oi.id
                message := "Added degradation event to existing incident (ID: " ++
                  toString oi.id ++ ") for " ++ service.service_name }, es.2)

/-- A sample service row used to instantiate theorems on concrete stores. -/
def sampleService : Cloud_Services :=
  { id := 1, service_name := "svc-one", endpoint := "http://svc-one", is_live := true }

/-- A store holding one live service and no incidents or events. -/
def sampleStore : StoreState :=
  { services := [sampleService], incidents := [], events := []
    nextIncidentId := 1, nextEventId := 1 }

/-- An OPEN incident for the sample service. -/
def sampleOpenIncident : Incident :=
  { id := 7, created_by_event := none, created_by := "user", service_id := 1
    status := IncidentStatus.OPEN, created_at := 0
    event_name := "Service Degradation - svc-one", event_type := EventType.UNPLANNED
    updated_at := 0, updated_by := none
    event_description := "Service degradation detected for svc-one" }

/-- A store holding one live service and one OPEN incident for it. -/
def sampleStoreWithIncident : StoreState :=
  { services := [sampleService], incidents := [sampleOpenIncident], events := []
    nextIncidentId := 8, nextEventId := 1 }

/-- C6: a correlate call whose decision is not-degraded leaves the store
untouched and, whenever the service exists, answers with no incident id and
the not-degraded message. -/
theorem handle_not_degraded_is_noop (service_id : Nat) (auto_triggered : Bool)
    (now : Nat) (s : StoreState) :
    (handle_degradation_and_incidents service_id false auto_triggered now s).2 = s ∧
    (∀ svc, s.services.find? (fun c => c.id == service_id) = some svc →
      (handle_degradation_and_incidents service_id false auto_triggered now s).1 =
        Except.ok
          { incident_id := none
            message := "Service " ++ svc.service_name ++ " is not degraded" }) := by
  cases hfind : s.services.find? (fun c => c.id == service_id) with
  | none =>
      constructor
      · unfold handle_degradation_and_incidents
        rw [hfind]
      · intro svc hsvc
        exact Option.noConfusion hsvc
  | some svc0 =>
      constructor
      · unfold handle_degradation_and_incidents
        rw [hfind]
        rfl
      · intro svc hsvc
        injection hsvc with hsvc
        subst hsvc
        unfold handle_degradation_and_incidents
        rw [hfind]
        rfl

/-- Witness for C6: the not-degraded call on the concrete one-service store. -/
theorem handle_not_degraded_is_noop_witness :
    (handle_degradation_and_incidents 1 false true 5 sampleStore).2 = sampleStore ∧
    (handle_degradation_and_incidents 1 false true 5 sampleStore).1 =
      Except.ok
        { incident_id := none
          message := "Service svc-one is not degraded" } :=
  ⟨(handle_not_degraded_is_noop 1 true 5 sampleStore).1,
    (handle_not_degraded_is_noop 1 true 5 sampleStore).2 sampleService rfl⟩

/-- C2: while the service has an incident in status OPEN or ACKNOWLEDGED,
each degraded correlate call appends one degradation event referencing that
incident, returns its id, and creates no incident; two successive calls hence
leave the incident table unchanged and append exactly two events, both
referencing the existing incident. -/
theorem handle_existing_open_incident_dedup
    (s : StoreState) (service_id : Nat) (svc : Cloud_Services) (inc : Incident)
    (a1 a2 : Bool) (t1 t2 : Nat)
    (hsvc : s.services.find? (fun c => c.id == service_id) = some svc)
    (hinc : find_open_incident service_id s = some inc) :
    ∃ m1 m2 e1 e2,
      (handle_degradation_and_incidents service_id true a1 t1 s).1 =
        Except.ok { incident_id := some inc.id, message := m1 } ∧
      (handle_degradation_and_incidents service_id true a1 t1 s).2.incidents =
        s.incidents ∧
      (handle_degradation_and_incidents service_id true a2 t2
          (handle_degradation_and_incidents service_id true a1 t1 s).2).1 =
        Except.ok { incident_id := some inc.id, message := m2 } ∧
      (handle_degradation_and_incidents service_id true a2 t2
          (handle_degradation_and_incidents service_id true a1 t1 s).2).2.incidents =
        s.incidents ∧
      (handle_degradation_and_incidents service_id true a2 t2
          (handle_degradation_and_incidents service_id true a1 t1 s).2).2.events =
        s.events ++ [e1, e2] ∧
      e1.incident_id = some inc.id ∧ e2.incident_id = some inc.id := by
  have hinc' : s.incidents.find? (fun i =>
      i.service_id == service_id &&
        (i.status == IncidentStatus.OPEN || i.status == IncidentStatus.ACKNOWLEDGED)) =
      some inc := by
    simpa [find_open_incident] using hinc
  refine ⟨"Added degradation event to existing incident (ID: " ++ toString inc.id ++
      ") for " ++ svc.service_name,
    "Added degradation event to existing incident (ID: " ++ toString inc.id ++
      ") for " ++ svc.service_name,
    ⟨s.nextEventId, service_id, some inc.id, t1, HEALTH_CHECK_WINDOW, a1⟩,
    ⟨s.nextEventId + 1, service_id, some inc.id, t2, HEALTH_CHECK_WINDOW, a2⟩,
    ?_, ?_, ?_, ?_, ?_, rfl, rfl⟩ <;>
  simp [handle_degradation_and_incidents, find_open_incident, insert_degradation_event,
    hsvc, hinc']

/-- Witness for C2: two degraded correlate calls on the concrete store whose
service already has an OPEN incident (id 7). -/
theorem handle_existing_open_incident_dedup_witness :
    ∃ m1 m2 e1 e2,
      (handle_degradation_and_incidents 1 true true 3 sampleStoreWithIncident).1 =
        Except.ok { incident_id := some sampleOpenIncident.id, message := m1 } ∧
      (handle_degradation_and_incidents 1 true true 3 sampleStoreWithIncident).2.incidents =
        sampleStoreWithIncident.incidents ∧
      (handle_degradation_and_incidents 1 true false 4
          (handle_degradation_and_incidents 1 true true 3 sampleStoreWithIncident).2).1 =
        Except.ok { incident_id := some sampleOpenIncident.id, message := m2 } ∧
      (handle_degradation_and_incidents 1 true false 4
          (handle_degradation_and_incidents 1 true true 3 sampleStoreWithIncident).2).2.incidents =
        sampleStoreWithIncident.incidents ∧
      (handle_degradation_and_incidents 1 true false 4
          (handle_degradation_and_incidents 1 true true 3 sampleStoreWithIncident).2).2.events =
        sampleStoreWithIncident.events ++ [e1, e2] ∧
      e1.incident_id = some sampleOpenIncident.id ∧
      e2.incident_id = some sampleOpenIncident.id :=
  handle_existing_open_incident_dedup sampleStoreWithIncident 1 sampleService
    sampleOpenIncident true false 3 4 rfl rfl

/-- The interleaved execution of two concurrent degraded correlate calls for
service 1 on the store with no incidents, in which both callers run step 1
(the open-incident lookup) before either caller commits a write.  Each caller
then follows its own branch decision: both observed no open incident, so both
insert an incident and back-fill their own event.  Every step is one of the
phase functions `handle_degradation_and_incidents` itself is composed of, so
this is a schedule of exactly the operations the code performs — the code
takes no lock and opens a fresh transaction per commit, so nothing in it
excludes this schedule. -/
def raceInterleaving : StoreState :=
  let s0 := sampleStore
  let foundA := find_open_incident 1 s0
  let foundB := find_open_incident 1 s0
  let esA := insert_degradation_event 1 foundA true 0 s0
  let esB := insert_degradation_event 1 foundB true 0 esA.2
  let nsA := insert_incident sampleService 1 esA.1.id true 0 esB.2
  let sA := backfill_event esA.1.id nsA.1.id nsA.2
  let nsB := insert_incident sampleService 1 esB.1.id true 0 sA
  backfill_event esB.1.id nsB.1.id nsB.2

/-- C3: refuted — the correlator takes no lock or service-scoped
transaction, so the interleaving in which both callers look up before either
writes ends with TWO incidents in OPEN/ACKNOWLEDGED status for the service,
violating the at-most-one-open-incident invariant the claim says is
protected. -/
theorem correlate_race_two_open_incidents :
    (raceInterleaving.incidents.filter (fun i =>
      i.service_id == 1 &&
        (i.status == IncidentStatus.OPEN ||
          i.status == IncidentStatus.ACKNOWLEDGED))).length = 2 := by
  rfl

/-- The three `session.commit()` calls the degraded correlate path performs,
in order (degradation_functions.py lines 107, 121 and 127). -/
inductive CommitPoint where
  | eventInsert
  | incidentInsert
  | backfillUpdate
  deriving DecidableEq, Repr

/-- The degraded correlate path with a fault injected at one commit.  Each
`session.commit()` is its own transaction, so a failing commit rolls back
only its own pending writes and surfaces the error, while every earlier
committed write stays in the store.  `failAt = none` is the fault-free run
and coincides with `handle_degradation_and_incidents` (see
`handle_degraded_with_failure_none_eq`). -/
def handle_degraded_with_failure (failAt : Option CommitPoint) (service_id : Nat)
    (auto_triggered : Bool) (now : Nat) (s : StoreState) :
    Except String CorrelateResult × StoreState :=
  match s.services.find? (fun c => c.id == service_id) with
  | none =>
      (Except.error ("Service with ID " ++ toString service_id ++ " not found"), s)
  | some service =>
      let open_incident := find_open_incident service_id s
      if failAt = some CommitPoint.eventInsert then
        (Except.error "commit failed", s)
      else
        let es := insert_degradation_event service_id open_incident auto_triggered now s
        match open_incident with
        | none =>
            if failAt = some CommitPoint.incidentInsert then
              (Except.error "commit failed", es.2)
            else
              let ns := insert_incident service service_id es.1.id auto_triggered now es.2
              if failAt = some CommitPoint.backfillUpdate then
                (Except.error "commit failed", ns.2)
              else
                let s3 := backfill_event es.1.id ns.1.id ns.2
                (Except.ok
                  { incident_id := some ns.1.id
                    message := "New incident created for " ++ service.service_name ++
                      " (ID: " ++ toString ns.1.id ++ ")" }, s3)
        | some oi =>
            (Except.ok
              { incident_id := some oi.id
                message := "Added degradation event to existing incident (ID: " ++
                  toString oi.id ++ ") for " ++ service.service_name }, es.2)

/-- The fault-free run of the failure model is exactly the correlator on a
degraded decision. -/
theorem handle_degraded_with_failure_none_eq (service_id : Nat)
    (auto_triggered : Bool) (now : Nat) (s : StoreState) :
    handle_degraded_with_failure none service_id auto_triggered now s =
      handle_degradation_and_incidents service_id true auto_triggered now s := by
  unfold handle_degraded_with_failure handle_degradation_and_incidents
  cases s.services.find? (fun c => c.id == service_id) with
  | none => rfl
  | some service =>
      cases find_open_incident service_id s with
      | none => rfl
      | some oi => rfl

/-- C4: refuted — when the incident-insert commit fails after the
degradation-event commit succeeded, the store is NOT as if the correlation
attempt never happened: the event of the failed attempt survives, and it
carries no incident reference. -/
theorem correlate_commit_failure_leaves_orphan_event :
    (handle_degraded_with_failure (some CommitPoint.incidentInsert) 1 true 9
      sampleStore).1 = Except.error "commit failed" ∧
    (handle_degraded_with_failure (some CommitPoint.incidentInsert) 1 true 9
      sampleStore).2.events =
      [{ id := 1, service_id := 1, incident_id := none, timestamp := 9
         time_window_minutes := HEALTH_CHECK_WINDOW, auto_triggered := true }] ∧
    sampleStore.events = [] := by
  exact ⟨rfl, rfl, rfl⟩

/-- The outcome of the `requests.get` probe call inside
`check_single_endpoint` (scheduler.py lines 25-34): either a completed HTTP
response carrying a status code, or a raised timeout / connection /
transport error. -/
inductive ProbeOutcome where
  | completed (status_code : Int)
  | transportError
  deriving DecidableEq, Repr

/-- `check_single_endpoint` (scheduler.py lines 21-56) as a total function of
the probe outcome, returning the health observation recorded for the
service.  The embedded degradation-trigger call (lines 36-48) sits inside
its own try/except, only prints, and cannot alter or abort the returned
record, so it does not appear in the result. -/
def check_single_endpoint (service : Cloud_Services) (outcome : ProbeOutcome)
    (now : Nat) : Health_Status :=
  match outcome with
  | ProbeOutcome.completed code =>
      { service_id := service.id
        is_health := decide (200 ≤ code ∧ code < 300)
        timestamp := now
        status_code := code }
  | ProbeOutcome.transportError =>
      { service_id := service.id
        is_health := false
        timestamp := now
        status_code := 0 }

/-- C5: `check_single_endpoint` always returns an observation (it is total
over every probe outcome): a completed response in [200,300) is healthy with
its status code; any other completed response is unhealthy with its actual
status code; a timeout, connection failure or transport error is unhealthy
with the sentinel status code 0. -/
theorem check_single_endpoint_classifies (service : Cloud_Services)
    (outcome : ProbeOutcome) (now : Nat) :
    (∀ code, outcome = ProbeOutcome.completed code → 200 ≤ code → code < 300 →
      check_single_endpoint service outcome now =
        { service_id := service.id, is_health := true
          timestamp := now, status_code := code }) ∧
    (∀ code, outcome = ProbeOutcome.completed code → ¬(200 ≤ code ∧ code < 300) →
      check_single_endpoint service outcome now =
        { service_id := service.id, is_health := false
          timestamp := now, status_code := code }) ∧
    (outcome = ProbeOutcome.transportError →
      check_single_endpoint service outcome now =
        { service_id := service.id, is_health := false
          timestamp := now, status_code := 0 }) := by
  refine ⟨?_, ?_, ?_⟩
  · intro code hc h1 h2
    subst hc
    simp [check_single_endpoint, h1, h2]
  · intro code hc hno
    subst hc
    simp [check_single_endpoint, hno]
  · intro hc
    subst hc
    rfl

/-- Witness for C5: a 204 response is healthy, a 503 response is unhealthy
with code 503, a transport error is unhealthy with code 0. -/
theorem check_single_endpoint_classifies_witness :
    check_single_endpoint sampleService (ProbeOutcome.completed 204) 5 =
      { service_id := 1, is_health := true, timestamp := 5, status_code := 204 } ∧
    check_single_endpoint sampleService (ProbeOutcome.completed 503) 5 =
      { service_id := 1, is_health := false, timestamp := 5, status_code := 503 } ∧
    check_single_endpoint sampleService ProbeOutcome.transportError 5 =
      { service_id := 1, is_health := false, timestamp := 5, status_code := 0 } :=
  ⟨(check_single_endpoint_classifies sampleService (ProbeOutcome.completed 204) 5).1
      204 rfl (by decide) (by decide),
    (check_single_endpoint_classifies sampleService (ProbeOutcome.completed 503) 5).2.1
      503 rfl (by decide),
    (check_single_endpoint_classifies sampleService ProbeOutcome.transportError 5).2.2
      rfl⟩

/-- `UpdateIncidentRequest` (api_models.py lines 35-38) plus the
`updated_by` entry the API layer always copies into the dict: the update
data handed to `update_incident`, each field either absent (`None`) or
supplied. -/
structure UpdateIncidentRequest where
  status : Option IncidentStatus
  event_description : Option String
  updated_by : Option String
  deriving DecidableEq, Repr

/-- The `for field, value in update_data.items(): if value is not None:
setattr(incident, field, value)` loop of `update_incident`
(degradation_functions.py lines 175-177). -/
def apply_update_fields (incident : Incident)
    (update_data : UpdateIncidentRequest) : Incident :=
  let incident := match update_data.status with
    | some v => { incident with status := v }
    | none => incident
  let incident := match update_data.event_description with
    | some v => { incident with event_description := v }
    | none => incident
  match update_data.updated_by with
    | some v => { incident with updated_by := some v }
    | none => incident

/-- `update_incident` (degradation_functions.py lines 165-183): look the
incident up by id, apply every supplied field, stamp `updated_at`, commit. -/
def update_incident (incident_id : Nat) (update_data : UpdateIncidentRequest)
    (now : Nat) (s : StoreState) : Except String Incident × StoreState :=
  match s.incidents.find? (fun i => i.id == incident_id) with
  | none =>
      (Except.error ("Incident with ID " ++ toString incident_id ++ " not found"), s)
  | some incident =>
      let updated := { apply_update_fields incident update_data with updated_at := now }
      (Except.ok updated,
        { s with
            incidents := s.incidents.map (fun i =>
              if i.id == incident_id then updated else i) })

/-- C10: for an existing incident, `update_incident` succeeds for every
update, applies each supplied field unconditionally — the new status wins
whatever the current status was, with no transition rule — and stamps
`updated_at` with the current time. -/
theorem update_incident_applies_fields_unconditionally
    (s : StoreState) (incident_id : Nat) (inc : Incident)
    (update_data : UpdateIncidentRequest) (now : Nat)
    (hfind : s.incidents.find? (fun i => i.id == incident_id) = some inc) :
    ∃ inc2 s2,
      update_incident incident_id update_data now s = (Except.ok inc2, s2) ∧
      inc2.status = update_data.status.getD inc.status ∧
      inc2.event_description =
        update_data.event_description.getD inc.event_description ∧
      inc2.updated_at = now ∧
      inc2.updated_by =
        (match update_data.updated_by with
          | some v => some v
          | none => inc.updated_by) ∧
      inc2.id = inc.id ∧ inc2.service_id = inc.service_id := by
  have hmain : update_incident incident_id update_data now s =
      (Except.ok { apply_update_fields inc update_data with updated_at := now },
        { s with
            incidents := s.incidents.map (fun i =>
              if i.id == incident_id
              then { apply_update_fields inc update_data with updated_at := now }
              else i) }) := by
    unfold update_incident
    rw [hfind]
  refine ⟨_, _, hmain, ?_, ?_, rfl, ?_, ?_, ?_⟩ <;>
    · unfold apply_update_fields
      cases update_data.status <;> cases update_data.event_description <;>
        cases update_data.updated_by <;> rfl

/-- Witness for C10: moving a CLOSED incident (id 9) straight back to OPEN
succeeds and applies the status. -/
theorem update_incident_applies_fields_unconditionally_witness :
    ∃ inc2 s2,
      update_incident 9
          { status := some IncidentStatus.OPEN, event_description := none
            updated_by := some "ops" } 42
          { services := [sampleService]
            incidents := [{ sampleOpenIncident with
                              id := 9, status := IncidentStatus.CLOSED }]
            events := [], nextIncidentId := 10, nextEventId := 1 } =
        (Except.ok inc2, s2) ∧
      inc2.status = (some IncidentStatus.OPEN).getD IncidentStatus.CLOSED ∧
      inc2.event_description =
        (none : Option String).getD sampleOpenIncident.event_description ∧
      inc2.updated_at = 42 ∧
      inc2.updated_by =
        (match some "ops" with
          | some v => some v
          | none => sampleOpenIncident.updated_by) ∧
      inc2.id = 9 ∧ inc2.service_id = 1 :=
  update_incident_applies_fields_unconditionally
    { services := [sampleService]
      incidents := [{ sampleOpenIncident with id := 9, status := IncidentStatus.CLOSED }]
      events := [], nextIncidentId := 10, nextEventId := 1 }
    9 { sampleOpenIncident with id := 9, status := IncidentStatus.CLOSED }
    { status := some IncidentStatus.OPEN, event_description := none
      updated_by := some "ops" } 42 rfl

end HealthMonitor
